import Mathlib

/-!
Shallow embedding of the scheduling/booking core of the
Gestor-De-Laboratorios repository (src/main.py, src/core/models.py,
src/ui/views/prestamos_view.py), together with proofs about the claims
of its specification.

Conventions of the embedding:
* timestamps are UTC instants measured in whole seconds (`Int`); a
  Python `datetime` that the code normalizes with `astimezone(utc)` is
  represented directly by its instant, so UTC normalization is the
  identity here;
* a calendar date is its day index (`Int`, day 0 is a Monday, matching
  `date.weekday()` where Monday = 0); `datetime.combine(d, t)` becomes
  `d * 86400 + t`;
* a time of day is its second-of-day (`Int`);
* SQLAlchemy rows become structures with the same field names; nullable
  columns become `Option`;
* fallible code paths return `Except`.
-/

set_option linter.unusedVariables false

deriving instance DecidableEq for Except

/-- Python runtime errors that the embedded code can raise. -/
inductive PyErr where
  | attributeError
deriving DecidableEq, Repr

/-- Row `ReglaHorario` (src/core/models.py): weekly recurring rule.
`laboratorio_id = none` is a global rule. -/
structure ReglaHorario where
  id : Int
  laboratorio_id : Option Int
  dia_semana : Int
  hora_inicio : Int
  hora_fin : Int
  es_habilitado : Bool
  tipo_intervalo : Option String
deriving DecidableEq, Repr

/-- Row `ExcepcionHorario` (src/core/models.py): date-specific override.
Its columns are exactly id, laboratorio_id, fecha, hora_inicio, hora_fin,
es_habilitado, descripcion — the model declares no `tipo` column. -/
structure ExcepcionHorario where
  id : Int
  laboratorio_id : Option Int
  fecha : Int
  hora_inicio : Option Int
  hora_fin : Option Int
  es_habilitado : Bool
  descripcion : Option String
deriving DecidableEq, Repr

/-- Row `Reserva` (src/core/models.py): a booking. -/
structure Reserva where
  id : Int
  usuario_id : Int
  laboratorio_id : Int
  inicio : Int
  fin : Int
  estado : String
  google_event_id : Option String
deriving DecidableEq, Repr

/-- Schema `SlotHorario` (src/pydantic_models.py): one compiled, classified slot. -/
structure SlotHorario where
  inicio : Int
  fin : Int
  tipo : String
deriving DecidableEq, Repr

/-- Day index of an instant (`datetime.date()` of a UTC instant). -/
def dateOf (t : Int) : Int := t.fdiv 86400

/-- Second-of-day of an instant (`datetime.time()` of a UTC instant). -/
def timeOfDay (t : Int) : Int := t.emod 86400

/-- Python `date.weekday()`: Monday = 0 with day 0 a Monday. -/
def diaSemana (d : Int) : Int := d.emod 7

/-- Python `s or dflt` on an optional string: `None` and `""` are falsy. -/
def pyOrStr (s : Option String) (dflt : String) : String :=
  match s with
  | none => dflt
  | some v => if v = "" then dflt else v

/-- Reading `ex.tipo` on an `ExcepcionHorario` instance (src/main.py line
784).  The model class defines no attribute `tipo`, so the attribute
access raises `AttributeError`. -/
def excepcionTipoAttr (_ : ExcepcionHorario) : Except PyErr String :=
  .error .attributeError

/-- Rule ordering used by `reglas_por_dia[dia].sort(key=lambda r:
r.hora_inicio)` (src/main.py line 712): stable sort by `hora_inicio`. -/
def reglaLe (a b : ReglaHorario) : Prop := a.hora_inicio ≤ b.hora_inicio

instance : DecidableRel reglaLe := fun a b => Int.decLe _ _

instance : IsTotal ReglaHorario reglaLe :=
  ⟨fun a b => Int.le_total a.hora_inicio b.hora_inicio⟩

instance : IsTrans ReglaHorario reglaLe :=
  ⟨fun _ _ _ h h2 => le_trans h h2⟩

/-- Slot ordering used by `slots_del_dia.sort(key=lambda x: x.inicio)`
(src/main.py line 794). -/
def slotLe (a b : SlotHorario) : Prop := a.inicio ≤ b.inicio

instance : DecidableRel slotLe := fun a b => Int.decLe _ _

instance : IsTotal SlotHorario slotLe :=
  ⟨fun a b => Int.le_total a.inicio b.inicio⟩

instance : IsTrans SlotHorario slotLe :=
  ⟨fun _ _ _ h h2 => le_trans h h2⟩

/-- The rules applicable to weekday `dia` for lab `labId`: src/main.py
lines 692-712.  Global rules (`laboratorio_id == None`) are grouped per
weekday; as soon as one lab-specific rule exists for a weekday, the
entry for that weekday is reset and only the lab-specific rules are
appended; finally each day's list is sorted (stably) by `hora_inicio`. -/
def reglasAUsar (labId : Int) (reglas : List ReglaHorario) (dia : Int) :
    List ReglaHorario :=
  let especificas := reglas.filter
    (fun r => r.laboratorio_id == some labId && r.dia_semana == dia)
  let generales := reglas.filter
    (fun r => r.laboratorio_id == none && r.dia_semana == dia)
  let base := if especificas.isEmpty then generales else especificas
  List.insertionSort reglaLe base

/-- Selection of the whole-day exception applying to a date: src/main.py
lines 743-745.  First lab-specific exception with `hora_inicio` null,
else first global one (`a or b` on the two `next(...)` results). -/
def excepcionDiaAplicable (labId : Int)
    (excepcionesHoy : List ExcepcionHorario) : Option ExcepcionHorario :=
  let especifica := excepcionesHoy.find?
    (fun ex => ex.laboratorio_id == some labId && ex.hora_inicio == none)
  let general := excepcionesHoy.find?
    (fun ex => ex.laboratorio_id == none && ex.hora_inicio == none)
  especifica.orElse (fun _ => general)

/-- One slot materialized from one rule on date `d`: the body of the
`for regla in reglas_a_usar` loop, src/main.py lines 755-792.
The classification steps:
  1. disabled rule → `tipo_intervalo or "no_habilitado"`, else
     `tipo_intervalo or "disponible"`;
  2. a booking whose (naive) start date/time equal the slot start
     reclassifies a `disponible` slot to `reservado`;
  3. the first exception with non-null times whose interval contains the
     slot and with `es_habilitado == False` reclassifies a still
     `disponible` slot — this path reads `ex.tipo`, which raises. -/
def slotDeRegla (d : Int) (excepcionesHoy : List ExcepcionHorario)
    (reservasFil : List Reserva) (regla : ReglaHorario) :
    Except PyErr SlotHorario :=
  let slotInicio := d * 86400 + regla.hora_inicio
  let slotFin := d * 86400 + regla.hora_fin
  let tipo0 :=
    if regla.es_habilitado then pyOrStr regla.tipo_intervalo "disponible"
    else pyOrStr regla.tipo_intervalo "no_habilitado"
  let tipo1 :=
    if tipo0 = "disponible" &&
        reservasFil.any (fun r =>
          dateOf r.inicio == d && timeOfDay r.inicio == regla.hora_inicio)
    then "reservado" else tipo0
  if tipo1 = "disponible" then
    match excepcionesHoy.find? (fun ex =>
        match ex.hora_inicio, ex.hora_fin with
        | some hi, some hf =>
          decide (d * 86400 + hi ≤ slotInicio) &&
          decide (slotFin ≤ d * 86400 + hf) && !ex.es_habilitado
        | _, _ => false) with
    | some ex =>
        match excepcionTipoAttr ex with
        | .error e => .error e
        | .ok t => .ok { inicio := slotInicio, fin := slotFin,
                         tipo := pyOrStr (some t) "mantenimiento" }
    | none => .ok { inicio := slotInicio, fin := slotFin, tipo := tipo1 }
  else .ok { inicio := slotInicio, fin := slotFin, tipo := tipo1 }

/-- Materialize the slots of all rules in order, aborting on the first
raised error (a Python exception propagates out of the loop). -/
def slotsDeReglas (d : Int) (excepcionesHoy : List ExcepcionHorario)
    (reservasFil : List Reserva) :
    List ReglaHorario → Except PyErr (List SlotHorario)
  | [] => .ok []
  | r :: rs =>
      match slotDeRegla d excepcionesHoy reservasFil r with
      | .error e => .error e
      | .ok s =>
        match slotsDeReglas d excepcionesHoy reservasFil rs with
        | .error e => .error e
        | .ok rest => .ok (s :: rest)

/-- Rule gathering, slot materialization/classification and the final
sort by start for one day (src/main.py lines 750-795), reached when no
disabled whole-day exception applies. -/
def compileDayReglas (labId : Int) (reglas : List ReglaHorario)
    (excepcionesHoy : List ExcepcionHorario) (reservasFil : List Reserva)
    (d : Int) : Except PyErr (List SlotHorario) :=
  if (reglasAUsar labId reglas (diaSemana d)).isEmpty then .ok []
  else
    match slotsDeReglas d excepcionesHoy reservasFil
        (reglasAUsar labId reglas (diaSemana d)) with
    | .error e => .error e
    | .ok slots => .ok (List.insertionSort slotLe slots)

/-- The per-day body of the `while current_date <= fecha_fin` loop of
`get_horario_laboratorio`, src/main.py lines 738-797: whole-day
exception short-circuit (`continue`), otherwise `compileDayReglas`. -/
def compileDay (labId : Int) (reglas : List ReglaHorario)
    (excepcionesHoy : List ExcepcionHorario) (reservasFil : List Reserva)
    (d : Int) : Except PyErr (List SlotHorario) :=
  match excepcionDiaAplicable labId excepcionesHoy with
  | some ex =>
    if ex.es_habilitado then
      compileDayReglas labId reglas excepcionesHoy reservasFil d
    else .ok []
  | none => compileDayReglas labId reglas excepcionesHoy reservasFil d

/-- The exception query of src/main.py line 714:
`ExcepcionHorario.laboratorio_id.in_([lab_id, None])` renders the
Python `None` as a literal SQL `NULL` inside the `IN` list, and
`x IN (lab_id, NULL)` is never true — neither for `x = NULL` (NULL
comparisons yield unknown) nor for any `x ≠ lab_id`.  The query
therefore returns exactly the rows with `laboratorio_id = lab_id`:
global (NULL-lab) exceptions are never fetched.  (Contrast the rules
query at line 692, whose `== None` does render `IS NULL`.) -/
def excepcionesEnRango (labId fechaInicio fechaFin : Int)
    (excepciones : List ExcepcionHorario) : List ExcepcionHorario :=
  excepciones.filter (fun ex =>
    ex.laboratorio_id == some labId &&
    fechaInicio ≤ ex.fecha && ex.fecha ≤ fechaFin)

/-- The booking query of src/main.py line 721: non-cancelled bookings of
this lab intersecting the requested date range. -/
def reservasEnRango (labId fechaInicio fechaFin : Int)
    (reservas : List Reserva) : List Reserva :=
  reservas.filter (fun r =>
    r.laboratorio_id == labId && r.estado != "cancelada" &&
    r.inicio < (fechaFin + 1) * 86400 && r.fin > fechaInicio * 86400)

/-- The day loop of `get_horario_laboratorio`, iterated `n` days starting
at date `d`; produces the `horario_final` association list. -/
def horarioDias (labId : Int) (reglas : List ReglaHorario)
    (excepciones : List ExcepcionHorario) (reservasFil : List Reserva)
    (d : Int) : Nat → Except PyErr (List (Int × List SlotHorario))
  | 0 => .ok []
  | n + 1 =>
      match compileDay labId reglas
          (excepciones.filter (fun ex => ex.fecha == d)) reservasFil d with
      | .error e => .error e
      | .ok slots =>
        match horarioDias labId reglas excepciones reservasFil (d + 1) n with
        | .error e => .error e
        | .ok rest => .ok ((d, slots) :: rest)

/-- Row `Laboratorio` (src/core/models.py), reduced to the fields the
embedded endpoints read. -/
structure Laboratorio where
  id : Int
  nombre : String
deriving DecidableEq, Repr

/-- Row `Usuario` (src/core/models.py), reduced to the fields the
embedded endpoints read. -/
structure Usuario where
  id : Int
  nombre : String
  correo : String
  rol : String
deriving DecidableEq, Repr

/-- Row `Recurso` (src/core/models.py). -/
structure Recurso where
  id : Int
  laboratorio_id : Int
  tipo : String
  estado : String
deriving DecidableEq, Repr

/-- Row `Prestamo` (src/core/models.py): an equipment loan. -/
structure Prestamo where
  id : Int
  recurso_id : Int
  usuario_id : Int
  solicitante : String
  cantidad : Int
  inicio : Int
  fin : Int
  estado : String
  comentario : Option String
deriving DecidableEq, Repr

/-- The transactional store backing the endpoints (the SQLAlchemy
session's tables).  `nextReservaId` and `nextPrestamoId` model the
autoincrement primary keys. -/
structure Store where
  labs : List Laboratorio
  usuarios : List Usuario
  reglas : List ReglaHorario
  excepciones : List ExcepcionHorario
  reservas : List Reserva
  recursos : List Recurso
  prestamos : List Prestamo
  nextReservaId : Int
  nextPrestamoId : Int
deriving DecidableEq, Repr

/-- Typed errors surfaced by the embedded endpoints (HTTPException
status kinds of src/main.py). -/
inductive ApiError where
  | forbidden
  | notFound
  | badRequest
  | conflict
  | internalError
deriving DecidableEq, Repr

/-- Endpoint `get_horario_laboratorio` (src/main.py lines 686-799) over a store:
lab lookup, rule/exception/booking queries, then the day loop.  A Python
exception escaping the loop (e.g. the `ex.tipo` AttributeError) aborts
the endpoint with a 500, embedded as `.error .internalError`. -/
def get_horario_laboratorio (st : Store) (labId fechaInicio fechaFin : Int) :
    Except ApiError (List (Int × List SlotHorario)) :=
  match st.labs.find? (fun l => l.id == labId) with
  | none => .error .notFound
  | some _ =>
    match horarioDias labId st.reglas
        (excepcionesEnRango labId fechaInicio fechaFin st.excepciones)
        (reservasEnRango labId fechaInicio fechaFin st.reservas)
        fechaInicio ((fechaFin - fechaInicio + 1).toNat) with
    | .ok m => .ok m
    | .error _ => .error .internalError

example :
    get_horario_laboratorio
      { labs := [⟨1, "Lab A"⟩], usuarios := [], reglas :=
          [⟨10, some 1, 0, 25200, 52200, true, some "disponible"⟩],
        excepciones := [], reservas := [], recursos := [], prestamos := [],
        nextReservaId := 1, nextPrestamoId := 1 } 1 0 0
      = .ok [(0, [⟨25200, 52200, "disponible"⟩])] := by decide

/-- The authenticated caller (`user: CurrentUser` dependency): the token
payload dict with `id` and `rol`. -/
structure UserCtx where
  id : Int
  rol : String
deriving DecidableEq, Repr

/-- Payload `ReservaCreate` (src/pydantic_models.py). -/
structure ReservaCreate where
  usuario_id : Int
  laboratorio_id : Int
  inicio : Int
  fin : Int
deriving DecidableEq, Repr

/-- The row `create_reserva` inserts on success (src/main.py line 860):
a fresh id, the requested user/lab/interval, `estado = "activa"`, and
the best-effort calendar event id (attached by the second commit at
line 887 when the collaborator returned one). -/
def nuevaReserva (st : Store) (req : ReservaCreate)
    (gEvent : Option String) : Reserva :=
  { id := st.nextReservaId, usuario_id := req.usuario_id,
    laboratorio_id := req.laboratorio_id, inicio := req.inicio,
    fin := req.fin, estado := "activa", google_event_id := gEvent }

/-- Endpoint `create_reserva` (src/main.py lines 806-900).  In order: role check,
lab and user lookup, UTC normalization (identity on instants),
`inicio < fin`, exact-slot validation against the compiled schedule of
`inicio`'s date, the non-cancelled overlap check, then the insert.
`gEvent` is the best-effort Google-Calendar collaborator's result; it
only affects the stored `google_event_id`.  Every failing path returns
the store unchanged (nothing was persisted yet, or the transaction is
rolled back). -/
def create_reserva (st : Store) (user : UserCtx) (req : ReservaCreate)
    (gEvent : Option String) : Except ApiError Reserva × Store :=
  if user.rol != "admin" && user.rol != "docente" then (.error .forbidden, st)
  else
    match st.labs.find? (fun l => l.id == req.laboratorio_id) with
    | none => (.error .notFound, st)
    | some _ =>
      match st.usuarios.find? (fun u => u.id == req.usuario_id) with
      | none => (.error .notFound, st)
      | some _ =>
        if req.inicio ≥ req.fin then (.error .badRequest, st)
        else
          match get_horario_laboratorio st req.laboratorio_id
              (dateOf req.inicio) (dateOf req.inicio) with
          | .error _ => (.error .internalError, st)
          | .ok horario =>
            if ((horario.lookup (dateOf req.inicio)).getD []).any (fun s =>
                s.inicio == req.inicio && s.fin == req.fin &&
                s.tipo == "disponible") then
              match st.reservas.find? (fun r =>
                  r.laboratorio_id == req.laboratorio_id &&
                  r.estado != "cancelada" &&
                  r.inicio < req.fin && r.fin > req.inicio) with
              | some _ => (.error .conflict, st)
              | none =>
                (.ok (nuevaReserva st req gEvent),
                 { st with
                   reservas := st.reservas ++ [nuevaReserva st req gEvent],
                   nextReservaId := st.nextReservaId + 1 })
            else (.error .conflict, st)

/-- The in-place update a successful cancellation performs on the target
row (src/main.py lines 912-923): `estado` becomes `cancelada`; the
Google event id is cleared only when one was present and the external
delete callback reported success. -/
def cancelarReserva (calDeleted : Bool) (x : Reserva) : Reserva :=
  { x with estado := "cancelada",
           google_event_id :=
             if x.google_event_id.isSome && calDeleted then none
             else x.google_event_id }

/-- Endpoint `cancel_reserva` (src/main.py lines 903-938): lookup, owner-or-admin
check, already-cancelled check, then the single-row update.
`calDeleted` is the external calendar collaborator's answer. -/
def cancel_reserva (st : Store) (user : UserCtx) (reservaId : Int)
    (calDeleted : Bool) : Except ApiError Reserva × Store :=
  match st.reservas.find? (fun r => r.id == reservaId) with
  | none => (.error .notFound, st)
  | some r =>
    if user.rol != "admin" && r.usuario_id != user.id then
      (.error .forbidden, st)
    else if r.estado == "cancelada" then (.error .badRequest, st)
    else
      (.ok (cancelarReserva calDeleted r),
       { st with reservas := st.reservas.map (fun x =>
           if x.id == reservaId then cancelarReserva calDeleted x else x) })

/-- Errors of `delete_laboratorio`; the 409 conflicts carry the blocker
count reported in the HTTP detail message. -/
inductive DeleteLabError where
  | notFound
  | conflictRecursos (n : Nat)
  | conflictReservas (n : Nat)
deriving DecidableEq, Repr

/-- Endpoint `delete_laboratorio` (src/main.py lines 403-420): blocked (with a
count) by any associated `Recurso`, then by any associated `Reserva`
regardless of its `estado`; on success the lab row is removed and its
`reglas_horario` and `excepciones_horario` cascade-delete with it
(src/core/models.py lines 98-107, `cascade="all, delete-orphan"`). -/
def delete_laboratorio (st : Store) (labId : Int) :
    Except DeleteLabError Unit × Store :=
  match st.labs.find? (fun l => l.id == labId) with
  | none => (.error .notFound, st)
  | some _ =>
    let recursosCount := (st.recursos.filter
      (fun r => r.laboratorio_id == labId)).length
    if recursosCount > 0 then (.error (.conflictRecursos recursosCount), st)
    else
      let reservasCount := (st.reservas.filter
        (fun r => r.laboratorio_id == labId)).length
      if reservasCount > 0 then (.error (.conflictReservas reservasCount), st)
      else
        (.ok (),
         { st with
           labs := st.labs.filter (fun l => !(l.id == labId)),
           reglas := st.reglas.filter
             (fun r => !(r.laboratorio_id == some labId)),
           excepciones := st.excepciones.filter
             (fun ex => !(ex.laboratorio_id == some labId)),
           recursos := st.recursos.filter
             (fun r => !(r.laboratorio_id == labId)) })

/-- The state names accepted by `update_prestamo_estado`
(src/main.py line 1002). -/
def allowedStates : List String :=
  ["pendiente", "aprobado", "rechazado", "entregado", "devuelto"]

/-- Endpoint `update_prestamo_estado` (src/main.py lines 997-1023): admin loan
state transition.  Any allowed target state is accepted from any current
state; the underlying `Recurso` is marked `disponible` on a transition
into `devuelto` and `prestado` on a transition into `entregado` (the
`db.refresh` re-reads perform no state change and are omitted). -/
def update_prestamo_estado (st : Store) (prestamoId : Int)
    (nuevoEstado : String) : Except ApiError Prestamo × Store :=
  match st.prestamos.find? (fun p => p.id == prestamoId) with
  | none => (.error .notFound, st)
  | some p =>
    if !(allowedStates.contains nuevoEstado) then (.error .badRequest, st)
    else
      let oldEstado := p.estado
      let actualizado := { p with estado := nuevoEstado }
      let recursoNuevoEstado : Option String :=
        match st.recursos.find? (fun r => r.id == p.recurso_id) with
        | none => none
        | some _ =>
          if oldEstado != "devuelto" && nuevoEstado == "devuelto" then
            some "disponible"
          else if oldEstado != "entregado" && nuevoEstado == "entregado" then
            some "prestado"
          else none
      (.ok actualizado,
       { st with
         prestamos := st.prestamos.map (fun x =>
           if x.id == prestamoId then { x with estado := nuevoEstado } else x),
         recursos :=
           match recursoNuevoEstado with
           | none => st.recursos
           | some e => st.recursos.map (fun r =>
               if r.id == p.recurso_id then { r with estado := e } else r) })

/-- Constant `CLASS_START` (src/ui/views/prestamos_view.py line 33): 07:00 as
seconds of day. -/
def CLASS_START : Int := 25200

/-- Constant `CLASS_END` (src/ui/views/prestamos_view.py line 34): 14:30 as
seconds of day. -/
def CLASS_END : Int := 52200

/-- Constant `MAX_LOAN_HOURS` (src/ui/views/prestamos_view.py line 35). -/
def MAX_LOAN_HOURS : Int := 7

/-- Function `_normalize_inicio` (src/ui/views/prestamos_view.py lines 514-519):
before 07:00 → today 07:00; strictly after 14:30 → tomorrow 07:00;
otherwise `now` itself. -/
def normalize_inicio (now : Int) : Int :=
  if timeOfDay now < CLASS_START then dateOf now * 86400 + CLASS_START
  else if timeOfDay now > CLASS_END then
    (dateOf now + 1) * 86400 + CLASS_START
  else now

/-- Function `_allowed_hours_for` (src/ui/views/prestamos_view.py lines 521-524):
`max(0, floor((same-day 14:30 − start) in seconds / 3600))`. -/
def allowed_hours_for (startDt : Int) : Int :=
  max 0 ((dateOf startDt * 86400 + CLASS_END - startDt).fdiv 3600)

/-- Rejections of `crear_solicitud`. -/
inductive LoanError where
  | recursoNotFound
  | recursoNoDisponible
  | minHoras
  | excedeHoras
  | fueraDeVentana
deriving DecidableEq, Repr

/-- The validation-and-create core of `crear_solicitud`
(src/ui/views/prestamos_view.py lines 560-627), for a caller `userId`
with display name `solicitante`: the resource must exist and be
`disponible`; `hours` must be at least 1, at most
`min(MAX_LOAN_HOURS, _allowed_hours_for(start_dt))`, and the resulting
end must not pass `CLASS_END` nor land on another date; on success a
`pendiente` loan over `[start_dt, start_dt + hours·3600)` is persisted
(the UI session/form plumbing around it is not modelled). -/
def crear_solicitud (st : Store) (userId : Int) (solicitante : String)
    (recursoId : Int) (startDt hours : Int) (motivo : Option String) :
    Except LoanError Prestamo × Store :=
  match st.recursos.find? (fun r => r.id == recursoId) with
  | none => (.error .recursoNotFound, st)
  | some rec =>
    if rec.estado != "disponible" then (.error .recursoNoDisponible, st)
    else
      let allowedToday := min MAX_LOAN_HOURS (allowed_hours_for startDt)
      if hours < 1 then (.error .minHoras, st)
      else if hours > allowedToday then (.error .excedeHoras, st)
      else
        let endDt := startDt + hours * 3600
        if timeOfDay endDt > CLASS_END || dateOf endDt != dateOf startDt then
          (.error .fueraDeVentana, st)
        else
          let nuevo : Prestamo :=
            { id := st.nextPrestamoId, recurso_id := recursoId,
              usuario_id := userId, solicitante := solicitante,
              cantidad := 1, inicio := startDt, fin := endDt,
              estado := "pendiente", comentario := motivo }
          (.ok nuevo,
           { st with prestamos := st.prestamos ++ [nuevo],
                     nextPrestamoId := st.nextPrestamoId + 1 })

/-! ## Claims -/

/-- When the whole-day exception selected by lines 743-747 is disabled,
the day loop stores an empty slot list before looking at rules or
bookings. -/
theorem compileDay_whole_day_skip (labId : Int)
    (reglas : List ReglaHorario) (excepcionesHoy : List ExcepcionHorario)
    (reservasFil : List Reserva) (d : Int) (ex : ExcepcionHorario)
    (hsel : excepcionDiaAplicable labId excepcionesHoy = some ex)
    (hdis : ex.es_habilitado = false) :
    compileDay labId reglas excepcionesHoy reservasFil d = .ok [] := by
  unfold compileDay
  rw [hsel]
  simp [hdis]

/-- A successful `horarioDias` run stores, for every day of the range,
the `compileDay` result of that day under that day's key. -/
theorem horarioDias_lookup {labId : Int} {reglas : List ReglaHorario}
    {excepciones : List ExcepcionHorario} {reservasFil : List Reserva} :
    ∀ {n : Nat} {start : Int} {m : List (Int × List SlotHorario)},
      horarioDias labId reglas excepciones reservasFil start n = .ok m →
      ∀ {d : Int}, start ≤ d → d < start + (n : Int) →
      ∃ slots, m.lookup d = some slots ∧
        compileDay labId reglas
          (excepciones.filter (fun ex => ex.fecha == d)) reservasFil d
          = .ok slots := by
  intro n
  induction n with
  | zero =>
    intro start m h d hlo hhi
    omega
  | succ k ih =>
    intro start m h d hlo hhi
    unfold horarioDias at h
    split at h
    · cases h
    · rename_i slots0 hday
      split at h
      · cases h
      · rename_i rest hrest
        cases h
        by_cases hd : d = start
        · subst hd
          refine ⟨slots0, ?_, hday⟩
          simp [List.lookup]
        · have hne : (d == start) = false := by simpa using hd
          have h1 : start + 1 ≤ d := by omega
          have h2 : d < (start + 1) + (k : Int) := by
            push_cast at hhi ⊢
            omega
          obtain ⟨slots, hl, hc⟩ := ih hrest h1 h2
          exact ⟨slots, by simp [List.lookup, hne, hl], hc⟩

/-- A store whose only exception is a GLOBAL whole-day disabled one for
date 0, plus an enabled Monday rule for lab 1. -/
def stGlobalFeriado : Store :=
  { labs := [⟨1, "Lab A"⟩], usuarios := [],
    reglas := [⟨10, some 1, 0, 25200, 52200, true, some "disponible"⟩],
    excepciones := [⟨5, none, 0, none, none, false, some "feriado"⟩],
    reservas := [], recursos := [], prestamos := [],
    nextReservaId := 1, nextPrestamoId := 1 }

/-- C3 counterexample: a global (`laboratorio_id` null) whole-day
exception with `es_habilitado = false` exists for date 0 — under the
claim it is applicable (no resource-specific one exists) and the day
must compile to an empty slot list — yet the endpoint still returns the
rule's slot: the exception query `laboratorio_id.in_([lab_id, None])`
(src/main.py line 714) never matches NULL rows, so global exceptions
are never fetched and never applied. -/
theorem c3_global_whole_day_ignored :
    stGlobalFeriado.excepciones =
      [⟨5, none, 0, none, none, false, some "feriado"⟩] ∧
    get_horario_laboratorio stGlobalFeriado 1 0 0 =
      .ok [(0, [⟨25200, 52200, "disponible"⟩])] ∧
    ([(⟨25200, 52200, "disponible"⟩ : SlotHorario)] : List SlotHorario)
      ≠ [] := by decide

/-- C3 (amended): for every date `d` in the requested range, if the
whole-day exception selected among the exceptions the query actually
fetches — only the resource-specific ones reach the day loop, since
`laboratorio_id IN (lab_id, NULL)` never matches NULL rows — has
`es_habilitado = false`, the returned schedule maps `d` to the empty
slot list, regardless of the rules and bookings of that day; global
whole-day exceptions are never fetched and have no effect (see
`c3_global_whole_day_ignored`). -/
theorem c3_specific_whole_day_closure (st : Store)
    (labId fechaInicio fechaFin d : Int)
    (m : List (Int × List SlotHorario)) (ex : ExcepcionHorario)
    (hok : get_horario_laboratorio st labId fechaInicio fechaFin = .ok m)
    (hlo : fechaInicio ≤ d) (hhi : d ≤ fechaFin)
    (hsel : excepcionDiaAplicable labId
        ((excepcionesEnRango labId fechaInicio fechaFin
          st.excepciones).filter (fun e => e.fecha == d)) = some ex)
    (hdis : ex.es_habilitado = false) :
    m.lookup d = some [] := by
  unfold get_horario_laboratorio at hok
  split at hok
  · simp at hok
  · split at hok
    · rename_i m0 hdias
      injection hok with hm
      subst hm
      have hbound : d < fechaInicio +
          (((fechaFin - fechaInicio + 1).toNat : Nat) : Int) := by omega
      obtain ⟨slots, hl, hc⟩ := horarioDias_lookup hdias hlo hbound
      rw [compileDay_whole_day_skip labId st.reglas _ _ d ex hsel hdis]
        at hc
      injection hc with hs
      rw [← hs] at hl
      exact hl
    · simp at hok

/-- Witness for `c3_specific_whole_day_closure`: a range request over a
day carrying an enabled rule, an active booking, and a disabled
lab-specific whole-day exception maps that day to no slots. -/
theorem c3_specific_whole_day_closure_witness :
    ([((0 : Int), ([] : List SlotHorario))].lookup (0 : Int)) =
      some [] :=
  c3_specific_whole_day_closure
    { labs := [⟨1, "Lab A"⟩], usuarios := [],
      reglas := [⟨10, some 1, 0, 25200, 52200, true, some "disponible"⟩],
      excepciones := [⟨5, some 1, 0, none, none, false, some "feriado"⟩],
      reservas := [⟨1, 2, 1, 25200, 52200, "activa", none⟩],
      recursos := [], prestamos := [],
      nextReservaId := 2, nextPrestamoId := 1 }
    1 0 0 0 [(0, [])] ⟨5, some 1, 0, none, none, false, some "feriado"⟩
    (by decide) (by decide) (by decide) (by decide) rfl

/-- C6: the code path the claim describes does not reclassify the slot:
on a `disponible` slot fully contained in a disabled time-bounded
exception, line 784 of src/main.py reads `ex.tipo`, an attribute
`ExcepcionHorario` does not define, so compilation aborts with an
`AttributeError` instead of completing with a reclassified slot. -/
theorem c6_exception_reclassify_crashes :
    compileDay 1 [⟨10, some 1, 0, 28800, 36000, true, some "disponible"⟩]
      [⟨5, some 1, 0, some 25200, some 43200, false, some "mantenimiento"⟩]
      [] 0 = .error .attributeError := by decide

/-- C5 counterexample: two overlapping enabled rules for the same
weekday materialize two overlapping slots — the compiled day is sorted
but NOT overlap-free.  The returned second slot starts (09:00) before
the first one ends (10:00). -/
theorem c5_overlap_counterexample :
    compileDay 1
      [⟨10, some 1, 0, 28800, 36000, true, some "disponible"⟩,
       ⟨11, some 1, 0, 32400, 39600, true, some "disponible"⟩] [] [] 0
      = .ok [⟨28800, 36000, "disponible"⟩, ⟨32400, 39600, "disponible"⟩] ∧
    (32400 : Int) < 36000 := by decide

/-- Every successful `compileDayReglas` result is sorted by slot start. -/
theorem compileDayReglas_sorted {labId : Int} {reglas : List ReglaHorario}
    {excepcionesHoy : List ExcepcionHorario} {reservasFil : List Reserva}
    {d : Int} {slots : List SlotHorario}
    (h : compileDayReglas labId reglas excepcionesHoy reservasFil d
          = .ok slots) :
    slots.Sorted slotLe := by
  unfold compileDayReglas at h
  split at h
  · cases h
    exact List.sorted_nil
  · split at h
    · cases h
    · cases h
      exact List.sorted_insertionSort slotLe _

/-- Every successful `compileDay` result is sorted by slot start. -/
theorem compileDay_sorted {labId : Int} {reglas : List ReglaHorario}
    {excepcionesHoy : List ExcepcionHorario} {reservasFil : List Reserva}
    {d : Int} {slots : List SlotHorario}
    (h : compileDay labId reglas excepcionesHoy reservasFil d = .ok slots) :
    slots.Sorted slotLe := by
  unfold compileDay at h
  split at h
  · split at h
    · exact compileDayReglas_sorted h
    · cases h
      exact List.sorted_nil
  · exact compileDayReglas_sorted h

/-- Every per-day list in a successful `horarioDias` run is a
`compileDay` result, hence sorted. -/
theorem horarioDias_sorted {labId : Int} {reglas : List ReglaHorario}
    {excepciones : List ExcepcionHorario} {reservasFil : List Reserva} :
    ∀ {n : Nat} {d : Int} {m : List (Int × List SlotHorario)},
      horarioDias labId reglas excepciones reservasFil d n = .ok m →
      ∀ p ∈ m, (p.2).Sorted slotLe := by
  intro n
  induction n with
  | zero =>
    intro d m h p hp
    cases h
    cases hp
  | succ k ih =>
    intro d m h p hp
    unfold horarioDias at h
    split at h
    · cases h
    · rename_i slots0 hday
      split at h
      · cases h
      · rename_i rest0 hrest
        cases h
        rcases List.mem_cons.mp hp with hp | hp
        · subst hp
          exact compileDay_sorted hday
        · exact ih hrest p hp

/-- C5 (amended): every per-day slot list returned by the schedule
compiler is sorted by slot start time ascending; the original claim's
additional no-overlap guarantee fails (see
`c5_overlap_counterexample`), since each rule materializes one slot and
overlapping stored rules yield overlapping slots. -/
theorem c5_slots_sorted (st : Store) (labId fechaInicio fechaFin : Int)
    (m : List (Int × List SlotHorario)) (d : Int)
    (slots : List SlotHorario)
    (hok : get_horario_laboratorio st labId fechaInicio fechaFin = .ok m)
    (hmem : (d, slots) ∈ m) : slots.Sorted slotLe := by
  unfold get_horario_laboratorio at hok
  split at hok
  · cases hok
  · split at hok
    · cases hok
      exact horarioDias_sorted (by assumption) (d, slots) hmem
    · cases hok

/-- Witness for `c5_slots_sorted`: a day compiled from two rules given
in reverse start order comes out sorted. -/
theorem c5_slots_sorted_witness :
    ([⟨28800, 36000, "disponible"⟩, ⟨32400, 39600, "disponible"⟩] :
        List SlotHorario).Sorted slotLe :=
  c5_slots_sorted
    { labs := [⟨1, "Lab A"⟩], usuarios := [],
      reglas := [⟨11, some 1, 0, 32400, 39600, true, some "disponible"⟩,
                 ⟨10, some 1, 0, 28800, 36000, true, some "disponible"⟩],
      excepciones := [], reservas := [], recursos := [], prestamos := [],
      nextReservaId := 1, nextPrestamoId := 1 } 1 0 0
    [(0, [⟨28800, 36000, "disponible"⟩, ⟨32400, 39600, "disponible"⟩])] 0
    [⟨28800, 36000, "disponible"⟩, ⟨32400, 39600, "disponible"⟩]
    (by decide) (by decide)

/-- Filtering the lab-specific rules out of an already lab-specific
subset changes nothing. -/
theorem filter_especificas_idem (labId dia : Int)
    (reglas : List ReglaHorario) :
    (reglas.filter fun r => r.laboratorio_id == some labId).filter
        (fun r => r.laboratorio_id == some labId && r.dia_semana == dia)
      = reglas.filter
        (fun r => r.laboratorio_id == some labId && r.dia_semana == dia) := by
  rw [List.filter_filter]
  congr 1
  funext r
  cases hx : (r.laboratorio_id == some labId) <;>
    cases hy : (r.dia_semana == dia) <;> simp [hx, hy]

/-- C4: if any lab-specific rule exists for the weekday of `d`, the
compiled day is identical to the one computed from the lab-specific
rules alone — no slot derives from a global rule; and when no
lab-specific rule exists for that weekday, the rules used are exactly
the global rules of that weekday (sorted by start). -/
theorem c4_specific_rules_replace_global (labId : Int)
    (reglas : List ReglaHorario) (excepcionesHoy : List ExcepcionHorario)
    (reservasFil : List Reserva) (d : Int) :
    ((∃ r ∈ reglas, r.laboratorio_id = some labId ∧
        r.dia_semana = diaSemana d) →
      compileDay labId reglas excepcionesHoy reservasFil d =
        compileDay labId
          (reglas.filter fun r => r.laboratorio_id == some labId)
          excepcionesHoy reservasFil d) ∧
    ((∀ r ∈ reglas, ¬(r.laboratorio_id = some labId ∧
        r.dia_semana = diaSemana d)) →
      reglasAUsar labId reglas (diaSemana d) =
        List.insertionSort reglaLe (reglas.filter
          (fun r => r.laboratorio_id == none &&
            r.dia_semana == diaSemana d))) := by
  constructor
  · rintro ⟨r, hr, hlab, hdia⟩
    have hmem : r ∈ reglas.filter
        (fun r => r.laboratorio_id == some labId &&
          r.dia_semana == diaSemana d) :=
      List.mem_filter.mpr ⟨hr, by simp [hlab, hdia]⟩
    have hne : (reglas.filter
        (fun r => r.laboratorio_id == some labId &&
          r.dia_semana == diaSemana d)).isEmpty = false := by
      have hnil := List.ne_nil_of_mem hmem
      cases hfe : reglas.filter
          (fun r => r.laboratorio_id == some labId &&
            r.dia_semana == diaSemana d) with
      | nil => exact absurd hfe hnil
      | cons a as => rfl
    have hAU : reglasAUsar labId reglas (diaSemana d) =
        reglasAUsar labId
          (reglas.filter fun r => r.laboratorio_id == some labId)
          (diaSemana d) := by
      simp only [reglasAUsar, filter_especificas_idem, hne,
        Bool.false_eq_true, if_false]
    simp only [compileDay, compileDayReglas, hAU]
  · intro hnone
    have hemp : reglas.filter
        (fun r => r.laboratorio_id == some labId &&
          r.dia_semana == diaSemana d) = [] := by
      rw [List.filter_eq_nil_iff]
      intro a ha
      have hna := hnone a ha
      simp only [Bool.and_eq_true, beq_iff_eq]
      exact fun hcon => hna hcon
    simp only [reglasAUsar, hemp, List.isEmpty_nil, if_true]

/-- Witness for `c4_specific_rules_replace_global`: with one global and
one lab-specific Monday rule, the compiled Monday ignores the global
rule. -/
theorem c4_witness :
    compileDay 1
      [⟨20, none, 0, 28800, 32400, true, some "disponible"⟩,
       ⟨21, some 1, 0, 36000, 39600, true, some "disponible"⟩] [] [] 0 =
    compileDay 1
      ([⟨20, none, 0, 28800, 32400, true, some "disponible"⟩,
        ⟨21, some 1, 0, 36000, 39600, true, some "disponible"⟩].filter
          fun r => r.laboratorio_id == some 1) [] [] 0 :=
  (c4_specific_rules_replace_global 1
    [⟨20, none, 0, 28800, 32400, true, some "disponible"⟩,
     ⟨21, some 1, 0, 36000, 39600, true, some "disponible"⟩] [] [] 0).1
    ⟨⟨21, some 1, 0, 36000, 39600, true, some "disponible"⟩,
      by decide, by decide, by decide⟩

/-- Division `Int.fdiv` by the positive constant 86400 agrees with `/`. -/
theorem fdiv86400 (a : Int) : a.fdiv 86400 = a / 86400 :=
  Int.fdiv_eq_ediv a (by decide)

/-- Division `Int.fdiv` by the positive constant 3600 agrees with `/`. -/
theorem fdiv3600 (a : Int) : a.fdiv 3600 = a / 3600 :=
  Int.fdiv_eq_ediv a (by decide)

/-- Remainder `Int.emod` written with the `%` notation. -/
theorem emod86400 (a : Int) : a.emod 86400 = a % 86400 := rfl

/-- The loan-start proposal as C7 words it: next-day window-open already
AT window-close ("at or after").  Stated only to compare against the
source's `_normalize_inicio`, which moves to the next day strictly
after `CLASS_END`. -/
def proposedStartClaimed (now : Int) : Int :=
  if timeOfDay now < CLASS_START then dateOf now * 86400 + CLASS_START
  else if timeOfDay now ≥ CLASS_END then
    (dateOf now + 1) * 86400 + CLASS_START
  else now

/-- C7 counterexample: at exactly window-close (14:30:00 on day 0,
instant 52200) the code proposes `now` itself, not window-open of the
next day (111600 = day 1, 07:00) as the claim requires. -/
theorem c7_at_close_counterexample :
    normalize_inicio 52200 = 52200 ∧
    proposedStartClaimed 52200 = 111600 ∧ (52200 : Int) ≠ 111600 := by
  decide

/-- A successful `crear_solicitud` implies every window-validation
condition held: at least one hour, within the daily allowance, and an
end neither past window-close nor on another date. -/
theorem crear_solicitud_ok_conditions {st : Store} {userId : Int}
    {solicitante : String} {recursoId startDt hours : Int}
    {motivo : Option String} {p : Prestamo}
    (h : (crear_solicitud st userId solicitante recursoId startDt hours
      motivo).1 = .ok p) :
    1 ≤ hours ∧ hours ≤ min MAX_LOAN_HOURS (allowed_hours_for startDt) ∧
    timeOfDay (startDt + hours * 3600) ≤ CLASS_END ∧
    dateOf (startDt + hours * 3600) = dateOf startDt := by
  simp only [crear_solicitud] at h
  split at h
  · simp at h
  · split at h
    · simp at h
    · split at h
      · simp at h
      · split at h
        · simp at h
        · split at h
          · simp at h
          · rename_i hlt hgt hout
            rw [Bool.or_eq_true, not_or] at hout
            obtain ⟨hout1, hout2⟩ := hout
            refine ⟨by omega, by omega, ?_, ?_⟩
            · simpa using hout1
            · simpa using hout2

/-- C7 (amended): the proposed start is window-open of the same day
before 07:00, window-open of the NEXT day strictly after 14:30, and
`now` itself otherwise (including exactly at 14:30); the allowed
duration equals `min 7 ⌊(window-close − proposed start)/1h⌋` (the
`max 0` of the source is redundant on normalized starts); at 08:00 the
allowed duration is 6; and a request whose hours exceed the allowance,
or whose end passes window-close or the day boundary, is rejected. -/
theorem c7_loan_window (now startDt hours : Int) :
    (timeOfDay now < CLASS_START →
      normalize_inicio now = dateOf now * 86400 + CLASS_START) ∧
    (timeOfDay now > CLASS_END →
      normalize_inicio now = (dateOf now + 1) * 86400 + CLASS_START) ∧
    (CLASS_START ≤ timeOfDay now → timeOfDay now ≤ CLASS_END →
      normalize_inicio now = now) ∧
    min MAX_LOAN_HOURS (allowed_hours_for (normalize_inicio now)) =
      min 7 ((dateOf (normalize_inicio now) * 86400 + CLASS_END -
        normalize_inicio now).fdiv 3600) ∧
    min MAX_LOAN_HOURS (allowed_hours_for 28800) = 6 ∧
    (∀ st userId solicitante recursoId motivo,
      hours > min MAX_LOAN_HOURS (allowed_hours_for startDt) →
      ∃ e, (crear_solicitud st userId solicitante recursoId startDt hours
        motivo).1 = .error e) ∧
    (∀ st userId solicitante recursoId motivo,
      (timeOfDay (startDt + hours * 3600) > CLASS_END ∨
        dateOf (startDt + hours * 3600) ≠ dateOf startDt) →
      ∃ e, (crear_solicitud st userId solicitante recursoId startDt hours
        motivo).1 = .error e) := by
  refine ⟨?_, ?_, ?_, ?_, by decide, ?_, ?_⟩
  · intro h
    simp only [normalize_inicio, if_pos h]
  · intro h
    have h1 : ¬ timeOfDay now < CLASS_START := by
      simp only [timeOfDay, CLASS_START, CLASS_END] at *
      omega
    simp only [normalize_inicio, if_neg h1, if_pos h]
  · intro hlo hhi
    have h1 : ¬ timeOfDay now < CLASS_START := by omega
    have h2 : ¬ timeOfDay now > CLASS_END := by omega
    simp only [normalize_inicio, if_neg h1, if_neg h2]
  · have hlink := Int.ediv_add_emod now 86400
    simp only [normalize_inicio, allowed_hours_for, dateOf, timeOfDay,
      CLASS_START, CLASS_END, MAX_LOAN_HOURS, fdiv86400, fdiv3600,
      emod86400]
    split
    · omega
    · split
      · omega
      · omega
  · intro st userId solicitante recursoId motivo h
    cases hres : (crear_solicitud st userId solicitante recursoId startDt
        hours motivo).1 with
    | error e => exact ⟨e, rfl⟩
    | ok p =>
      have hc := crear_solicitud_ok_conditions hres
      omega
  · intro st userId solicitante recursoId motivo h
    cases hres : (crear_solicitud st userId solicitante recursoId startDt
        hours motivo).1 with
    | error e => exact ⟨e, rfl⟩
    | ok p =>
      have hc := crear_solicitud_ok_conditions hres
      rcases h with h | h
      · omega
      · exact absurd hc.2.2.2 h

/-- Witness for `c7_loan_window`: at 06:00 (instant 21600) the proposal
is 07:00 of the same day. -/
theorem c7_loan_window_witness : normalize_inicio 21600 = 25200 :=
  (c7_loan_window 21600 0 1).1 (by decide)

/-- A store holding a single loan already in the terminal state
`devuelto`, its resource, and nothing else. -/
def storeDevuelto : Store :=
  { labs := [⟨1, "Lab A"⟩], usuarios := [⟨2, "Ana", "ana@x", "docente"⟩],
    reglas := [], excepciones := [], reservas := [],
    recursos := [⟨5, 1, "laptop", "disponible"⟩],
    prestamos := [⟨1, 5, 2, "Ana", 1, 25200, 32400, "devuelto", none⟩],
    nextReservaId := 1, nextPrestamoId := 2 }

/-- C8 counterexample: a loan in the terminal state `devuelto` is moved
back to `pendiente` by the admin endpoint — the transition is accepted
and the stored status changes, not refused. -/
theorem c8_terminal_counterexample :
    storeDevuelto.prestamos.map (fun p => p.estado) = ["devuelto"] ∧
    (update_prestamo_estado storeDevuelto 1 "pendiente").1 =
      .ok ⟨1, 5, 2, "Ana", 1, 25200, 32400, "pendiente", none⟩ ∧
    ((update_prestamo_estado storeDevuelto 1 "pendiente").2).prestamos.map
      (fun p => p.estado) = ["pendiente"] := by decide

/-- C8 (amended): the endpoint refuses a transition only when the loan
id is unknown or the target state name is not one of the five allowed
names; whenever the loan exists and the name is allowed — including
from the terminal states `rechazado` and `devuelto` — the transition is
accepted and the loan's status becomes the requested state. -/
theorem c8_no_terminal_guard (st : Store) (prestamoId : Int)
    (nuevoEstado : String) (p : Prestamo)
    (hfind : st.prestamos.find? (fun q => q.id == prestamoId) = some p)
    (hallowed : allowedStates.contains nuevoEstado = true) :
    (update_prestamo_estado st prestamoId nuevoEstado).1 =
      .ok { p with estado := nuevoEstado } := by
  have hmem : nuevoEstado ∈ allowedStates := by simpa using hallowed
  unfold update_prestamo_estado
  rw [hfind]
  simp [hmem]

/-- Witness for `c8_no_terminal_guard`: the concrete `devuelto`
loan of `storeDevuelto` is transitioned to `aprobado`. -/
theorem c8_no_terminal_guard_witness :
    (update_prestamo_estado storeDevuelto 1 "aprobado").1 =
      .ok ⟨1, 5, 2, "Ana", 1, 25200, 32400, "aprobado", none⟩ :=
  c8_no_terminal_guard storeDevuelto 1 "aprobado"
    ⟨1, 5, 2, "Ana", 1, 25200, 32400, "devuelto", none⟩
    (by decide) (by decide)

/-- A store holding one lab whose only dependent row is a CANCELLED
booking (no resources), plus a rule and an exception attached to the
lab. -/
def storeCancelada : Store :=
  { labs := [⟨1, "Lab A"⟩], usuarios := [⟨2, "Ana", "ana@x", "docente"⟩],
    reglas := [⟨10, some 1, 0, 25200, 52200, true, some "disponible"⟩],
    excepciones := [⟨5, some 1, 3, none, none, false, some "feriado"⟩],
    reservas := [⟨1, 2, 1, 25200, 32400, "cancelada", none⟩],
    recursos := [], prestamos := [],
    nextReservaId := 2, nextPrestamoId := 1 }

/-- C9 counterexample: a lab whose only dependent is one CANCELLED
booking is NOT deletable — the endpoint counts every `Reserva` row
regardless of `estado` and rejects with blocker count 1, where the
claim requires the deletion to succeed. -/
theorem c9_cancelled_blocks_counterexample :
    storeCancelada.reservas.map (fun r => r.estado) = ["cancelada"] ∧
    storeCancelada.recursos = [] ∧ storeCancelada.prestamos = [] ∧
    delete_laboratorio storeCancelada 1 =
      (.error (.conflictReservas 1), storeCancelada) := by decide

/-- C9 (amended): deletion of a lab is rejected with the blocker count
when associated resources exist, otherwise when any bookings exist
REGARDLESS of status (cancelled ones included); it succeeds only when
the lab has no resources and no bookings at all, and then its recurring
rules and exceptions cascade-delete with it. -/
theorem c9_delete_guard (st : Store) (labId : Int) (lab : Laboratorio)
    (hfind : st.labs.find? (fun l => l.id == labId) = some lab) :
    ((st.recursos.filter (fun r => r.laboratorio_id == labId)).length > 0 →
      delete_laboratorio st labId =
        (.error (.conflictRecursos
          (st.recursos.filter (fun r => r.laboratorio_id == labId)).length),
         st)) ∧
    ((st.recursos.filter (fun r => r.laboratorio_id == labId)).length = 0 →
      (st.reservas.filter (fun r => r.laboratorio_id == labId)).length > 0 →
      delete_laboratorio st labId =
        (.error (.conflictReservas
          (st.reservas.filter (fun r => r.laboratorio_id == labId)).length),
         st)) ∧
    ((st.recursos.filter (fun r => r.laboratorio_id == labId)).length = 0 →
      (st.reservas.filter (fun r => r.laboratorio_id == labId)).length = 0 →
      delete_laboratorio st labId =
        (.ok (),
         { st with
           labs := st.labs.filter (fun l => !(l.id == labId)),
           reglas := st.reglas.filter
             (fun r => !(r.laboratorio_id == some labId)),
           excepciones := st.excepciones.filter
             (fun ex => !(ex.laboratorio_id == some labId)),
           recursos := st.recursos.filter
             (fun r => !(r.laboratorio_id == labId)) })) := by
  refine ⟨?_, ?_, ?_⟩
  · intro h
    unfold delete_laboratorio
    rw [hfind]
    simp [h]
  · intro h0 h1
    unfold delete_laboratorio
    rw [hfind]
    simp [h0, h1]
  · intro h0 h1
    unfold delete_laboratorio
    rw [hfind]
    simp [h0, h1]

/-- Witness for `c9_delete_guard`: deleting a lab with no resources and
no bookings succeeds and cascades its rule and exception away. -/
theorem c9_delete_guard_witness :
    delete_laboratorio
      { labs := [⟨1, "Lab A"⟩], usuarios := [],
        reglas := [⟨10, some 1, 0, 25200, 52200, true, some "disponible"⟩],
        excepciones := [⟨5, some 1, 3, none, none, false, some "feriado"⟩],
        reservas := [], recursos := [], prestamos := [],
        nextReservaId := 1, nextPrestamoId := 1 } 1 =
      (.ok (),
       { labs := [], usuarios := [], reglas := [], excepciones := [],
         reservas := [], recursos := [], prestamos := [],
         nextReservaId := 1, nextPrestamoId := 1 }) := by
  have h := (c9_delete_guard
    { labs := [⟨1, "Lab A"⟩], usuarios := [],
      reglas := [⟨10, some 1, 0, 25200, 52200, true, some "disponible"⟩],
      excepciones := [⟨5, some 1, 3, none, none, false, some "feriado"⟩],
      reservas := [], recursos := [], prestamos := [],
      nextReservaId := 1, nextPrestamoId := 1 } 1 ⟨1, "Lab A"⟩
    (by decide)).2.2 (by decide) (by decide)
  exact h.trans (by decide)

/-- C10: a successful cancellation changes only the target booking's
`estado` (to `cancelada`) and possibly its `google_event_id` (cleared or
kept); its user, lab and interval are untouched, every other booking row
is unchanged, and no other table of the store is touched. -/
theorem c10_cancel_frame (st : Store) (user : UserCtx) (reservaId : Int)
    (calDeleted : Bool) (r : Reserva) (st2 : Store)
    (h : cancel_reserva st user reservaId calDeleted = (.ok r, st2)) :
    st2.labs = st.labs ∧ st2.usuarios = st.usuarios ∧
    st2.reglas = st.reglas ∧ st2.excepciones = st.excepciones ∧
    st2.recursos = st.recursos ∧ st2.prestamos = st.prestamos ∧
    st2.reservas.length = st.reservas.length ∧
    ∀ i (hi : i < st.reservas.length) (hi2 : i < st2.reservas.length),
      ((st.reservas.get ⟨i, hi⟩).id ≠ reservaId →
        st2.reservas.get ⟨i, hi2⟩ = st.reservas.get ⟨i, hi⟩) ∧
      ((st.reservas.get ⟨i, hi⟩).id = reservaId →
        (st2.reservas.get ⟨i, hi2⟩).estado = "cancelada" ∧
        (st2.reservas.get ⟨i, hi2⟩).usuario_id =
          (st.reservas.get ⟨i, hi⟩).usuario_id ∧
        (st2.reservas.get ⟨i, hi2⟩).laboratorio_id =
          (st.reservas.get ⟨i, hi⟩).laboratorio_id ∧
        (st2.reservas.get ⟨i, hi2⟩).inicio =
          (st.reservas.get ⟨i, hi⟩).inicio ∧
        (st2.reservas.get ⟨i, hi2⟩).fin = (st.reservas.get ⟨i, hi⟩).fin ∧
        ((st2.reservas.get ⟨i, hi2⟩).google_event_id =
            (st.reservas.get ⟨i, hi⟩).google_event_id ∨
          (st2.reservas.get ⟨i, hi2⟩).google_event_id = none)) := by
  unfold cancel_reserva at h
  split at h
  · simp at h
  · split at h
    · simp at h
    · split at h
      · simp at h
      · rw [Prod.mk.injEq] at h
        obtain ⟨hr, hst⟩ := h
        subst hst
        refine ⟨rfl, rfl, rfl, rfl, rfl, rfl, List.length_map _ _, ?_⟩
        intro i hi hi2
        constructor
        · intro hne
          simp only [List.get_eq_getElem] at hne
          simp only [List.get_eq_getElem, List.getElem_map]
          rw [if_neg (by simpa using hne)]
        · intro hid
          simp only [List.get_eq_getElem] at hid
          simp only [List.get_eq_getElem, List.getElem_map]
          rw [if_pos (by simpa using hid)]
          refine ⟨rfl, rfl, rfl, rfl, rfl, ?_⟩
          by_cases hg : ((st.reservas.get ⟨i, hi⟩).google_event_id.isSome
              && calDeleted) = true
          · right
            simp only [List.get_eq_getElem] at hg
            simp [cancelarReserva, hg]
          · left
            simp only [List.get_eq_getElem] at hg
            simp [cancelarReserva, hg]

/-- Witness for `c10_cancel_frame`: cancelling the second of two
bookings leaves the first untouched and only flips the second's
`estado`. -/
theorem c10_cancel_frame_witness :
    (([⟨1, 2, 1, 25200, 32400, "activa", none⟩,
       ⟨2, 2, 1, 36000, 39600, "cancelada", some "gid"⟩] :
        List Reserva).get ⟨0, by decide⟩).id ≠ (1 : Int) ∨
    (((cancel_reserva
        { labs := [⟨1, "Lab A"⟩], usuarios := [⟨2, "Ana", "ana@x", "docente"⟩],
          reglas := [], excepciones := [],
          reservas := [⟨1, 2, 1, 25200, 32400, "activa", none⟩,
                       ⟨2, 2, 1, 36000, 39600, "cancelada", some "gid"⟩],
          recursos := [], prestamos := [],
          nextReservaId := 3, nextPrestamoId := 1 }
        ⟨2, "docente"⟩ 1 false).2.reservas.get ⟨0, by decide⟩).estado =
      "cancelada") :=
  .inr (((c10_cancel_frame
    { labs := [⟨1, "Lab A"⟩], usuarios := [⟨2, "Ana", "ana@x", "docente"⟩],
      reglas := [], excepciones := [],
      reservas := [⟨1, 2, 1, 25200, 32400, "activa", none⟩,
                   ⟨2, 2, 1, 36000, 39600, "cancelada", some "gid"⟩],
      recursos := [], prestamos := [],
      nextReservaId := 3, nextPrestamoId := 1 }
    ⟨2, "docente"⟩ 1 false
    ⟨1, 2, 1, 25200, 32400, "cancelada", none⟩ _ (by decide)).2.2.2.2.2.2.2
    0 (by decide) (by decide)).2 (by decide)).1

/-- A successful single-day schedule request returns exactly one entry,
keyed by that day. -/
theorem get_horario_single {st : Store} {labId d : Int}
    {m : List (Int × List SlotHorario)}
    (h : get_horario_laboratorio st labId d d = .ok m) :
    ∃ s, m = [(d, s)] := by
  unfold get_horario_laboratorio at h
  split at h
  · simp at h
  · split at h
    · rename_i m0 hdias
      injection h with h2
      subst h2
      have hn : (d - d + 1).toNat = 1 := by omega
      rw [hn] at hdias
      unfold horarioDias at hdias
      split at hdias
      · simp at hdias
      · rename_i slots hcd
        simp only [horarioDias] at hdias
        injection hdias with h3
        exact ⟨slots, h3.symm⟩
    · simp at h

/-- C2: `create_reserva` succeeds only when the requested interval
exactly equals (same start, same end) a slot the schedule compiler
returns for the start's date whose kind is exactly `disponible` — any
other interval, partial overlap included, is rejected with a typed
error — and every failing run leaves the store unchanged. -/
theorem c2_exact_slot_or_nothing (st : Store) (user : UserCtx)
    (req : ReservaCreate) (g : Option String) :
    (∀ r st2, create_reserva st user req g = (.ok r, st2) →
      ∃ slots, get_horario_laboratorio st req.laboratorio_id
          (dateOf req.inicio) (dateOf req.inicio) =
            .ok [(dateOf req.inicio, slots)] ∧
        slots.any (fun s => s.inicio == req.inicio && s.fin == req.fin &&
          s.tipo == "disponible") = true) ∧
    (∀ e st2, create_reserva st user req g = (.error e, st2) →
      st2 = st) := by
  constructor
  · intro r st2 h
    unfold create_reserva at h
    split at h
    · simp at h
    · split at h
      · simp at h
      · split at h
        · simp at h
        · split at h
          · simp at h
          · split at h
            · simp at h
            · rename_i horario hhor
              split at h
              · rename_i hany
                split at h
                · simp at h
                · obtain ⟨s, hs⟩ := get_horario_single hhor
                  subst hs
                  refine ⟨s, hhor, ?_⟩
                  simpa using hany
              · simp at h
  · intro e st2 h
    unfold create_reserva at h
    repeat' split at h
    all_goals rw [Prod.mk.injEq] at h
    all_goals first
      | exact h.2.symm
      | exact absurd h.1 (by simp)

/-- Witness for `c2_exact_slot_or_nothing`: a successful creation on a
one-rule schedule pins the booked interval to the compiled
`disponible` slot, and a rejected inverted interval leaves the store
unchanged. -/
theorem c2_exact_slot_or_nothing_witness :
    ∃ slots, get_horario_laboratorio
        { labs := [⟨1, "Lab A"⟩],
          usuarios := [⟨2, "Ana", "ana@x", "docente"⟩],
          reglas := [⟨10, some 1, 0, 25200, 52200, true, some "disponible"⟩],
          excepciones := [], reservas := [], recursos := [], prestamos := [],
          nextReservaId := 1, nextPrestamoId := 1 } 1 0 0 =
          .ok [(0, slots)] ∧
      slots.any (fun s => s.inicio == (25200 : Int) &&
        s.fin == (52200 : Int) && s.tipo == "disponible") = true :=
  (c2_exact_slot_or_nothing
    { labs := [⟨1, "Lab A"⟩], usuarios := [⟨2, "Ana", "ana@x", "docente"⟩],
      reglas := [⟨10, some 1, 0, 25200, 52200, true, some "disponible"⟩],
      excepciones := [], reservas := [], recursos := [], prestamos := [],
      nextReservaId := 1, nextPrestamoId := 1 }
    ⟨2, "docente"⟩ ⟨2, 1, 25200, 52200⟩ none).1
    ⟨1, 2, 1, 25200, 52200, "activa", none⟩
    { labs := [⟨1, "Lab A"⟩], usuarios := [⟨2, "Ana", "ana@x", "docente"⟩],
      reglas := [⟨10, some 1, 0, 25200, 52200, true, some "disponible"⟩],
      excepciones := [],
      reservas := [⟨1, 2, 1, 25200, 52200, "activa", none⟩],
      recursos := [], prestamos := [],
      nextReservaId := 2, nextPrestamoId := 1 }
    (by decide)

/-- One externally driven operation on the booking store. -/
inductive Op where
  | create (user : UserCtx) (req : ReservaCreate) (gEvent : Option String)
  | cancel (user : UserCtx) (reservaId : Int) (calDeleted : Bool)

/-- Run one operation and keep the resulting store, whether the call
succeeded or was rejected. -/
def applyOp (st : Store) : Op → Store
  | .create user req gEvent => (create_reserva st user req gEvent).2
  | .cancel user reservaId calDeleted =>
      (cancel_reserva st user reservaId calDeleted).2

/-- The core consistency guarantee: among the stored bookings, no two
`activa` rows on the same lab have overlapping `[inicio, fin)`
intervals. -/
def InvReservas (l : List Reserva) : Prop :=
  l.Pairwise (fun a b => a.laboratorio_id = b.laboratorio_id →
    a.estado = "activa" → b.estado = "activa" →
    ¬(a.inicio < b.fin ∧ b.inicio < a.fin))

instance (l : List Reserva) : Decidable (InvReservas l) := by
  unfold InvReservas
  infer_instance

/-- Creation `create_reserva` preserves the no-overlap invariant: it only inserts
after the transactional check found no non-cancelled overlapping booking
on the same lab. -/
theorem create_reserva_preserves_inv (st : Store) (user : UserCtx)
    (req : ReservaCreate) (g : Option String)
    (hInv : InvReservas st.reservas) :
    InvReservas ((create_reserva st user req g).2).reservas := by
  unfold create_reserva
  repeat' split
  all_goals try exact hInv
  rename_i hfindnone
  show InvReservas (st.reservas ++ [nuevaReserva st req g])
  unfold InvReservas
  rw [List.pairwise_append]
  refine ⟨hInv, List.pairwise_singleton _ _, ?_⟩
  intro a ha b hb
  simp only [List.mem_singleton] at hb
  subst hb
  intro hlab hA hB
  rintro ⟨h1, h2⟩
  have hall := List.find?_eq_none.mp hfindnone a ha
  refine absurd ?_ hall
  simp only [nuevaReserva] at hlab h1 h2
  simp [hlab, hA, h1, h2]

/-- Cancellation `cancel_reserva` preserves the no-overlap invariant: it only turns
an `activa` row into a `cancelada` one. -/
theorem cancel_reserva_preserves_inv (st : Store) (user : UserCtx)
    (reservaId : Int) (calDeleted : Bool)
    (hInv : InvReservas st.reservas) :
    InvReservas ((cancel_reserva st user reservaId calDeleted).2).reservas := by
  unfold cancel_reserva
  repeat' split
  all_goals try exact hInv
  refine List.Pairwise.map _ ?_ hInv
  intro a b hab hlab hA hB
  by_cases haid : (a.id == reservaId) = true
  · rw [if_pos haid] at hA
    simp [cancelarReserva] at hA
  · by_cases hbid : (b.id == reservaId) = true
    · rw [if_pos hbid] at hB
      simp [cancelarReserva] at hB
    · rw [if_neg haid] at hA
      rw [if_neg hbid] at hB
      rw [if_neg haid, if_neg hbid] at hlab ⊢
      exact hab hlab hA hB

/-- C1: starting from a store whose bookings satisfy the per-lab
no-overlap invariant for `activa` bookings, any sequence of
`create_reserva` and `cancel_reserva` calls preserves the invariant —
creation rejects with a 409 conflict whenever a non-cancelled booking
on the same lab overlaps the requested interval, and cancellation only
shrinks the set of `activa` bookings. -/
theorem c1_no_double_booking (ops : List Op) (st : Store)
    (hInv : InvReservas st.reservas) :
    InvReservas ((ops.foldl applyOp st).reservas) := by
  induction ops generalizing st with
  | nil => exact hInv
  | cons op rest ih =>
    cases op with
    | create user req g =>
      exact ih _ (create_reserva_preserves_inv st user req g hInv)
    | cancel user reservaId calDeleted =>
      exact ih _
        (cancel_reserva_preserves_inv st user reservaId calDeleted hInv)

/-- Witness for `c1_no_double_booking`: a successful creation followed
by a cancellation and a second (rejected) creation attempt keeps the
invariant on a concrete store. -/
theorem c1_no_double_booking_witness :
    InvReservas
      (([Op.create ⟨2, "docente"⟩ ⟨2, 1, 25200, 52200⟩ none,
         Op.create ⟨2, "docente"⟩ ⟨2, 1, 25200, 52200⟩ none,
         Op.cancel ⟨2, "docente"⟩ 1 true].foldl applyOp
        { labs := [⟨1, "Lab A"⟩],
          usuarios := [⟨2, "Ana", "ana@x", "docente"⟩],
          reglas := [⟨10, some 1, 0, 25200, 52200, true, some "disponible"⟩],
          excepciones := [], reservas := [], recursos := [], prestamos := [],
          nextReservaId := 1, nextPrestamoId := 1 }).reservas) :=
  c1_no_double_booking _ _ (by decide)
